import Mathlib

/-!
Verification development for the everlight-api webhook ingestion and
token-lifecycle subsystem. Byte strings are modelled as `List Nat` with every
byte below 256 where it matters, machine words as `Nat` reduced modulo `2 ^ 32`,
timestamps as `Int` seconds, and database tables as lists of records. Fallible
Python code is modelled with `Except`/`Option`; outbound network calls and the
embedding collaborator are explicit functional parameters.
-/

set_option maxRecDepth 100000

namespace Everlight

/-! ## SHA-256 over byte lists (hashlib.sha256), as used by
`_verify_notion_signature` in src/api/integration_endpoints.py -/

/-- Reduce a natural number to a 32-bit word. -/
def w32 (x : Nat) : Nat := x % 4294967296

/-- Rotate a 32-bit word right by `n` (0 < n < 32). -/
def ror32 (x n : Nat) : Nat := w32 ((x >>> n) ||| (x <<< (32 - n)))

/-- SHA-256 big Sigma-0. -/
def bSig0 (x : Nat) : Nat := (ror32 x 2) ^^^ (ror32 x 13) ^^^ (ror32 x 22)

/-- SHA-256 big Sigma-1. -/
def bSig1 (x : Nat) : Nat := (ror32 x 6) ^^^ (ror32 x 11) ^^^ (ror32 x 25)

/-- SHA-256 small sigma-0. -/
def sSig0 (x : Nat) : Nat := (ror32 x 7) ^^^ (ror32 x 18) ^^^ (x >>> 3)

/-- SHA-256 small sigma-1. -/
def sSig1 (x : Nat) : Nat := (ror32 x 17) ^^^ (ror32 x 19) ^^^ (x >>> 10)

/-- SHA-256 choice function; bitwise not is xor with the all-ones word. -/
def chFun (x y z : Nat) : Nat := (x &&& y) ^^^ ((x ^^^ 4294967295) &&& z)

/-- SHA-256 majority function. -/
def majFun (x y z : Nat) : Nat := (x &&& y) ^^^ (x &&& z) ^^^ (y &&& z)

/-- SHA-256 round constants of FIPS 180-4 (the fractional parts of the cube
roots of the first 64 primes), written in decimal. -/
def sha256K : List Nat :=
  [1116352408, 1899447441, 3049323471, 3921009573, 961987163, 1508970993,
   2453635748, 2870763221, 3624381080, 310598401, 607225278, 1426881987,
   1925078388, 2162078206, 2614888103, 3248222580, 3835390401, 4022224774,
   264347078, 604807628, 770255983, 1249150122, 1555081692, 1996064986,
   2554220882, 2821834349, 2952996808, 3210313671, 3336571891, 3584528711,
   113926993, 338241895, 666307205, 773529912, 1294757372, 1396182291,
   1695183700, 1986661051, 2177026350, 2456956037, 2730485921, 2820302411,
   3259730800, 3345764771, 3516065817, 3600352804, 4094571909, 275423344,
   430227734, 506948616, 659060556, 883997877, 958139571, 1322822218,
   1537002063, 1747873779, 1955562222, 2024104815, 2227730452, 2361852424,
   2428436474, 2756734187, 3204031479, 3329325298]

/-- SHA-256 initial hash state of FIPS 180-4, written in decimal. -/
def sha256H0 : List Nat :=
  [1779033703, 3144134277, 1013904242, 2773480762,
   1359893119, 2600822924, 528734635, 1541459225]

/-- Big-endian 8-byte encoding of a length-in-bits counter. -/
def bytesBE8 (n : Nat) : List Nat :=
  [(n >>> 56) % 256, (n >>> 48) % 256, (n >>> 40) % 256, (n >>> 32) % 256,
   (n >>> 24) % 256, (n >>> 16) % 256, (n >>> 8) % 256, n % 256]

/-- SHA-256 message padding: append 0x80, zeros to 56 mod 64, then the bit length. -/
def padMessage (msg : List Nat) : List Nat :=
  let len := msg.length
  let zeros := (55 + 64 - len % 64) % 64
  msg ++ [0x80] ++ List.replicate zeros 0 ++ bytesBE8 (8 * len)

/-- Pack bytes into big-endian 32-bit words, four at a time. -/
def wordsOfBytes : List Nat → List Nat
  | b0 :: b1 :: b2 :: b3 :: rest =>
      ((b0 <<< 24) ||| (b1 <<< 16) ||| (b2 <<< 8) ||| b3) :: wordsOfBytes rest
  | _ => []

/-- Extend a 16-word block schedule by `fuel` further words. -/
def extendSchedule : List Nat → Nat → List Nat
  | w, 0 => w
  | w, fuel + 1 =>
      let i := w.length
      let next := w32 (sSig1 (w.getD (i - 2) 0) + w.getD (i - 7) 0 +
                       sSig0 (w.getD (i - 15) 0) + w.getD (i - 16) 0)
      extendSchedule (w ++ [next]) fuel

/-- One SHA-256 compression round on the 8-register state. -/
def sha256Round (st : List Nat) (kw : Nat × Nat) : List Nat :=
  match st with
  | [a, b, c, d, e, f, g, h] =>
      let t1 := w32 (h + bSig1 e + chFun e f g + kw.1 + kw.2)
      let t2 := w32 (bSig0 a + majFun a b c)
      [w32 (t1 + t2), a, b, c, w32 (d + t1), e, f, g]
  | other => other

/-- Compress one 64-byte block into the running hash state. -/
def compressBlock (hstate : List Nat) (block : List Nat) : List Nat :=
  let ws := extendSchedule (wordsOfBytes block) 48
  let fin := (sha256K.zip ws).foldl sha256Round hstate
  (hstate.zip fin).map fun p => w32 (p.1 + p.2)

/-- Split a byte list into 64-byte chunks, with structural fuel so that the
kernel can evaluate it (the fuel is the length, always sufficient). -/
def chunks64Fuel : Nat → List Nat → List (List Nat)
  | 0, _ => []
  | _, [] => []
  | fuel + 1, b :: rest => ((b :: rest).take 64) :: chunks64Fuel fuel (rest.drop 63)

/-- Split a byte list into 64-byte chunks. -/
def chunks64 (l : List Nat) : List (List Nat) := chunks64Fuel l.length l

/-- Serialize one 32-bit word as four big-endian bytes. -/
def wordBytes (w : Nat) : List Nat :=
  [(w >>> 24) % 256, (w >>> 16) % 256, (w >>> 8) % 256, w % 256]

/-- SHA-256 digest of a byte list, as a list of 32 bytes. -/
def sha256 (msg : List Nat) : List Nat :=
  (((chunks64 (padMessage msg)).foldl compressBlock sha256H0).map wordBytes).flatten

/-- HMAC-SHA256 (hmac.new(key, msg, hashlib.sha256)) with 64-byte block size. -/
def hmacSha256 (key msg : List Nat) : List Nat :=
  let k0 := if 64 < key.length then sha256 key else key
  let kp := k0 ++ List.replicate (64 - k0.length) 0
  sha256 ((kp.map fun b => b ^^^ 0x5c) ++ sha256 ((kp.map fun b => b ^^^ 0x36) ++ msg))

/-- Lower-case hex digit for a value below 16. -/
def hexDigitChar (n : Nat) : Char :=
  if n < 10 then Char.ofNat (48 + n) else Char.ofNat (87 + n)

/-- Two hex digits of one byte. -/
def hexPair (b : Nat) : List Char := [hexDigitChar (b / 16), hexDigitChar (b % 16)]

/-- Lower-case hex encoding of a byte list (hexdigest). -/
def hexOfBytes (bs : List Nat) : List Char := bs.flatMap hexPair

/-- Sanity check of the SHA-256 embedding against the standard empty-string vector. -/
example : sha256 [] =
    [227, 176, 196, 66, 152, 252, 28, 20, 154, 251, 244, 200, 153, 111, 185, 36,
     39, 174, 65, 228, 100, 155, 147, 76, 164, 149, 153, 27, 120, 82, 184, 85] := by
  decide

/-- Sanity check against the standard three-byte vector for "abc". -/
example : sha256 [97, 98, 99] =
    [186, 120, 22, 191, 143, 1, 207, 234, 65, 65, 64, 222, 93, 174, 34, 35,
     176, 3, 97, 163, 150, 23, 122, 156, 180, 16, 255, 97, 242, 0, 21, 173] := by
  decide

/-- Sanity check of HMAC-SHA256 for key "key", message "msg". -/
example : hmacSha256 [107, 101, 121] [109, 115, 103] =
    [45, 147, 203, 193, 190, 22, 123, 203, 22, 55, 164, 162, 60, 191, 240, 26,
     120, 120, 240, 197, 14, 232, 51, 149, 78, 165, 34, 27, 177, 184, 198, 40] := by
  decide

/-! ## The Notion webhook signature verifier
(`_verify_notion_signature`, src/api/integration_endpoints.py 370-401) -/

/-- Characters of the literal header tag. -/
def sigTagChars : List Char := ['s', 'h', 'a', '2', '5', '6', '=']

/-- The tag characters spell the literal prefix string of the code. -/
example : sigTagChars = "sha256=".toList := by decide

/-- Embedding of `_verify_notion_signature(body, verification_token, signature_header)`.
The secret is taken as its UTF-8 bytes (the code calls `.encode` on the stored
string); the header is its character sequence. A header not starting with the
tag returns false; otherwise the hex HMAC-SHA256 of the body under the secret
is compared with the rest of the header (`hmac.compare_digest`, semantically
equality). The Python `except` branch returning False is subsumed by the model
being a total boolean function. -/
def _verify_notion_signature (body : List Nat) (verificationToken : List Nat)
    (signatureHeader : List Char) : Bool :=
  if sigTagChars.isPrefixOf signatureHeader then
    let received := signatureHeader.drop 7
    let expected := hexOfBytes (hmacSha256 verificationToken body)
    decide (expected = received)
  else false

/-! ## Support lemmas about hex encodings and digests -/

/-- Hex digit characters are distinct below 16. -/
theorem hexDigitChar_inj : ∀ a < 16, ∀ b < 16, hexDigitChar a = hexDigitChar b → a = b := by
  decide

/-- Each byte produced by `wordBytes` is below 256. -/
theorem wordBytes_lt (w : Nat) : ∀ b ∈ wordBytes w, b < 256 := by
  intro b hb
  simp only [wordBytes, List.mem_cons, List.not_mem_nil, or_false] at hb
  rcases hb with h | h | h | h <;> subst h <;> omega

/-- Every byte of a SHA-256 digest is below 256. -/
theorem sha256_mem_lt (msg : List Nat) : ∀ b ∈ sha256 msg, b < 256 := by
  intro b hb
  simp only [sha256, List.mem_flatten, List.mem_map] at hb
  obtain ⟨l, ⟨w, _, rfl⟩, hbl⟩ := hb
  exact wordBytes_lt w b hbl

/-- Every byte of an HMAC-SHA256 digest is below 256. -/
theorem hmacSha256_mem_lt (key msg : List Nat) : ∀ b ∈ hmacSha256 key msg, b < 256 := by
  intro b hb
  simp only [hmacSha256] at hb
  exact sha256_mem_lt _ b hb

/-- The two hex digits determine the byte. -/
theorem hexPair_inj {a b : Nat} (ha : a < 256) (hb : b < 256) (h : hexPair a = hexPair b) :
    a = b := by
  simp only [hexPair, List.cons.injEq, and_true] at h
  have d1 : a / 16 = b / 16 := hexDigitChar_inj _ (by omega) _ (by omega) h.1
  have d2 : a % 16 = b % 16 := hexDigitChar_inj _ (by omega) _ (by omega) h.2
  omega

/-- Hex encoding is injective on byte lists. -/
theorem hexOfBytes_inj : ∀ l1 l2 : List Nat, (∀ x ∈ l1, x < 256) → (∀ x ∈ l2, x < 256) →
    hexOfBytes l1 = hexOfBytes l2 → l1 = l2 := by
  intro l1
  induction l1 with
  | nil =>
      intro l2 _ _ h
      cases l2 with
      | nil => rfl
      | cons b t => simp [hexOfBytes, hexPair] at h
  | cons a t ih =>
      intro l2 h1 h2 h
      cases l2 with
      | nil => simp [hexOfBytes, hexPair] at h
      | cons b t2 =>
          simp only [hexOfBytes, List.flatMap_cons, hexPair, List.cons_append,
            List.nil_append, List.cons.injEq] at h
          have hab : a = b :=
            hexPair_inj (h1 a (by simp)) (h2 b (by simp))
              (by simp [hexPair, h.1, h.2.1])
          have htt : t = t2 :=
            ih t2 (fun x hx => h1 x (by simp [hx])) (fun x hx => h2 x (by simp [hx])) h.2.2
          rw [hab, htt]

/-- C3: for every body and secret, a header formed as the literal tag followed
by the hex HMAC-SHA256 of the body under the secret verifies as true; a header
that does not start with the tag always verifies false; and whenever the
recomputed digest differs from the digest encoded in the header (in particular
after any byte of the body or the secret is changed so that the HMAC value
changes, which for HMAC-SHA256 is how byte flips manifest), verification is
false. Internal errors cannot occur in the total model: the function always
returns a boolean, mirroring the `except` branch that converts any failure to
False. -/
theorem verify_notion_signature_spec :
    (∀ body secret, _verify_notion_signature body secret
        (sigTagChars ++ hexOfBytes (hmacSha256 secret body)) = true)
  ∧ (∀ body secret hdr, sigTagChars.isPrefixOf hdr = false →
        _verify_notion_signature body secret hdr = false)
  ∧ (∀ body body2 secret secret2, hmacSha256 secret2 body2 ≠ hmacSha256 secret body →
        _verify_notion_signature body2 secret2
          (sigTagChars ++ hexOfBytes (hmacSha256 secret body)) = false) := by
  have hpre : ∀ s : List Char, sigTagChars.isPrefixOf (sigTagChars ++ s) = true := by
    intro s
    simp [sigTagChars, List.isPrefixOf]
  have hdrop : ∀ s : List Char, (sigTagChars ++ s).drop 7 = s := by
    intro s
    rfl
  refine ⟨?_, ?_, ?_⟩
  · intro body secret
    simp only [_verify_notion_signature, hpre, if_true, hdrop, decide_eq_true_eq]
  · intro body secret hdr h
    simp [_verify_notion_signature, h]
  · intro body body2 secret secret2 hne
    simp only [_verify_notion_signature, hpre, if_true, hdrop]
    apply decide_eq_false
    intro heq
    exact hne (hexOfBytes_inj _ _ (hmacSha256_mem_lt secret2 body2)
      (hmacSha256_mem_lt secret body) heq)

/-- Witness for C3 at concrete inputs: the correct header for body [1, 2] and
secret [3] verifies; a header missing the tag is rejected; and the header for
body [1, 2] is rejected for the flipped body [9, 2], whose HMAC differs. -/
theorem verify_notion_signature_spec_witness :
    _verify_notion_signature [1, 2] [3]
        (sigTagChars ++ hexOfBytes (hmacSha256 [3] [1, 2])) = true
  ∧ _verify_notion_signature [1, 2] [3] ['x'] = false
  ∧ _verify_notion_signature [9, 2] [3]
        (sigTagChars ++ hexOfBytes (hmacSha256 [3] [1, 2])) = false :=
  ⟨verify_notion_signature_spec.1 [1, 2] [3],
   verify_notion_signature_spec.2.1 [1, 2] [3] ['x'] (by decide),
   verify_notion_signature_spec.2.2 [1, 2] [9, 2] [3] [3] (by decide)⟩

/-! ## base64url decoding with padding correction
(`base64.urlsafe_b64decode`, used at src/integrations/gmail_importer.py 380/391
with padding `"=" * (4 - len % 4)` and at src/api/integration_endpoints.py 1117
with padding `+ "=="`). The decoder follows CPython binascii.a2b_base64 in
non-strict mode: non-alphabet characters are skipped, a pad character at quad
position two or three ends decoding once enough pads accumulated, and input
ending mid-quad is an error. -/

/-- Value of one base64 alphabet character after the urlsafe translation of
`-` to `+` and `_` to `/`; none for non-alphabet characters such as `=`. -/
def b64Val (c : Char) : Option Nat :=
  if 'A' ≤ c ∧ c ≤ 'Z' then some (c.toNat - 65)
  else if 'a' ≤ c ∧ c ≤ 'z' then some (c.toNat - 97 + 26)
  else if '0' ≤ c ∧ c ≤ '9' then some (c.toNat - 48 + 52)
  else if c = '-' ∨ c = '+' then some 62
  else if c = '_' ∨ c = '/' then some 63
  else none

/-- Main loop of binascii a2b_base64 (non-strict): state is the quad position,
the pending bits, the count of pending pad characters, and the output bytes. -/
def a2bLoop : List Char → Nat → Nat → Nat → List Nat → Option (List Nat)
  | [], quadPos, _, _, acc => if quadPos = 0 then some acc else none
  | c :: rest, quadPos, leftchar, pads, acc =>
    if c = '=' then
      if 2 ≤ quadPos then
        if 4 ≤ quadPos + pads + 1 then some acc
        else a2bLoop rest quadPos leftchar (pads + 1) acc
      else a2bLoop rest quadPos leftchar pads acc
    else
      match b64Val c with
      | none => a2bLoop rest quadPos leftchar pads acc
      | some v =>
        match quadPos with
        | 0 => a2bLoop rest 1 v 0 acc
        | 1 => a2bLoop rest 2 (v &&& 15) 0 (acc ++ [(leftchar <<< 2) ||| (v >>> 4)])
        | 2 => a2bLoop rest 3 (v &&& 3) 0 (acc ++ [(leftchar <<< 4) ||| (v >>> 2)])
        | _ => a2bLoop rest 0 0 0 (acc ++ [(leftchar <<< 6) ||| v])

/-- Embedding of `base64.urlsafe_b64decode` on a character sequence, returning
the decoded bytes or none for the binascii padding errors. -/
def urlsafe_b64decode (s : List Char) : Option (List Nat) := a2bLoop s 0 0 0 []

/-- Padding applied by `_extract_body_text`: `data + "=" * (4 - len(data) % 4)`. -/
def extractBodyPadded (data : List Char) : List Char :=
  data ++ List.replicate (4 - data.length % 4) '='

/-- Padding applied by `handle_gmail_webhook`: `notification.message.data + "=="`. -/
def gmailWebhookPadded (data : List Char) : List Char := data ++ ['=', '=']

/-- The canonical padding that makes the value correctly padded base64. -/
def properPadded (data : List Char) : List Char :=
  data ++ List.replicate ((4 - data.length % 4) % 4) '='

/-- Sanity check: the decoder agrees with CPython on a two-pad quad. -/
example : urlsafe_b64decode ['Q', 'Q', '=', '='] = some [65] := by decide

/-- Sanity check: unpadded input of length two rejects, as in CPython. -/
example : urlsafe_b64decode ['Q', 'Q'] = none := by decide

/-- Running the loop over alphabet characters only changes the state by a fold:
the tail behaviour depends on the suffix, the new quad position is the old one
advanced by the character count, and pads return to zero. -/
theorem a2bLoop_valid_run : ∀ (data : List Char), (∀ c ∈ data, (b64Val c).isSome) →
    ∀ qp lc acc, qp < 4 → ∃ lc2 acc2, ∀ rest : List Char,
      a2bLoop (data ++ rest) qp lc 0 acc =
        a2bLoop rest ((qp + data.length) % 4) lc2 0 acc2 := by
  intro data
  induction data with
  | nil =>
      intro _ qp lc acc hqp
      exact ⟨lc, acc, fun rest => by simp [Nat.mod_eq_of_lt hqp]⟩
  | cons c t ih =>
      intro hval qp lc acc hqp
      have hc : (b64Val c).isSome := hval c (by simp)
      have hne : ¬ c = '=' := by
        intro h
        rw [h] at hc
        simp [b64Val] at hc
      obtain ⟨v, hv⟩ := Option.isSome_iff_exists.mp hc
      have hval' : ∀ x ∈ t, (b64Val x).isSome := fun x hx => hval x (by simp [hx])
      interval_cases qp
      · obtain ⟨lc2, acc2, hrec⟩ := ih hval' 1 v acc (by omega)
        refine ⟨lc2, acc2, fun rest => ?_⟩
        rw [List.cons_append]
        simp only [a2bLoop, hne, if_false, hv, List.length_cons]
        rw [hrec rest, show (1 + t.length) % 4 = (0 + (t.length + 1)) % 4 from by omega]
      · obtain ⟨lc2, acc2, hrec⟩ := ih hval' 2 (v &&& 15)
          (acc ++ [(lc <<< 2) ||| (v >>> 4)]) (by omega)
        refine ⟨lc2, acc2, fun rest => ?_⟩
        rw [List.cons_append]
        simp only [a2bLoop, hne, if_false, hv, List.length_cons]
        rw [hrec rest, show (2 + t.length) % 4 = (1 + (t.length + 1)) % 4 from by omega]
      · obtain ⟨lc2, acc2, hrec⟩ := ih hval' 3 (v &&& 3)
          (acc ++ [(lc <<< 4) ||| (v >>> 2)]) (by omega)
        refine ⟨lc2, acc2, fun rest => ?_⟩
        rw [List.cons_append]
        simp only [a2bLoop, hne, if_false, hv, List.length_cons]
        rw [hrec rest, show (3 + t.length) % 4 = (2 + (t.length + 1)) % 4 from by omega]
      · obtain ⟨lc2, acc2, hrec⟩ := ih hval' 0 0 (acc ++ [(lc <<< 6) ||| v]) (by omega)
        refine ⟨lc2, acc2, fun rest => ?_⟩
        rw [List.cons_append]
        simp only [a2bLoop, hne, if_false, hv, List.length_cons]
        rw [hrec rest, show (0 + t.length) % 4 = (3 + (t.length + 1)) % 4 from by omega]

/-- Running the loop on a run of pad characters: from quad position zero all
pads are skipped and the accumulated bytes are returned; from position one the
input is rejected; from positions two and three the accumulated bytes are
returned exactly when enough pads arrive. -/
theorem a2bLoop_pads : ∀ (k qp lc pads acc), qp < 4 →
    a2bLoop (List.replicate k '=') qp lc pads acc =
      if qp = 0 then some acc
      else if qp = 1 then none
      else if 1 ≤ k ∧ 4 ≤ k + qp + pads then some acc else none := by
  intro k
  induction k with
  | zero =>
      intro qp lc pads acc hqp
      interval_cases qp <;> simp [a2bLoop]
  | succ k ih =>
      intro qp lc pads acc hqp
      rw [List.replicate_succ]
      interval_cases qp
      · rw [show a2bLoop ('=' :: List.replicate k '=') 0 lc pads acc =
              a2bLoop (List.replicate k '=') 0 lc pads acc from by simp [a2bLoop]]
        rw [ih 0 lc pads acc (by omega)]
        simp
      · rw [show a2bLoop ('=' :: List.replicate k '=') 1 lc pads acc =
              a2bLoop (List.replicate k '=') 1 lc pads acc from by simp [a2bLoop]]
        rw [ih 1 lc pads acc (by omega)]
        simp
      · by_cases hdone : 4 ≤ 2 + pads + 1
        · have hcond : 1 ≤ k + 1 ∧ 4 ≤ k + 1 + 2 + pads := by omega
          simp [a2bLoop, hdone, hcond]
        · rw [show a2bLoop ('=' :: List.replicate k '=') 2 lc pads acc =
                a2bLoop (List.replicate k '=') 2 lc (pads + 1) acc from by
              simp [a2bLoop, hdone]]
          rw [ih 2 lc (pads + 1) acc (by omega)]
          split_ifs <;> first | rfl | omega
      · have hdone : 4 ≤ 3 + pads + 1 := by omega
        have hcond : 1 ≤ k + 1 ∧ 4 ≤ k + 1 + 3 + pads := by omega
        simp [a2bLoop, hdone, hcond]


/-- C10: for every valid base64url value whose required padding was omitted
(alphabet characters only, length not 1 mod 4), the padding corrections used by
the code (the body extractor appends 4 - len mod 4 pads; the Gmail webhook
handler appends two pads) decode to exactly the bytes of the correctly padded
value. -/
theorem base64url_padding_correction (data : List Char)
    (hval : ∀ c ∈ data, (b64Val c).isSome) (hlen : data.length % 4 ≠ 1) :
    ∃ bs, urlsafe_b64decode (properPadded data) = some bs
        ∧ urlsafe_b64decode (extractBodyPadded data) = some bs
        ∧ urlsafe_b64decode (gmailWebhookPadded data) = some bs := by
  obtain ⟨lc2, acc2, hrun⟩ := a2bLoop_valid_run data hval 0 0 [] (by omega)
  have hqp : (0 + data.length) % 4 = data.length % 4 := by omega
  have hqplt : data.length % 4 < 4 := by omega
  have hpads : ∀ k, a2bLoop (List.replicate k '=') (data.length % 4) lc2 0 acc2 =
      if data.length % 4 = 0 then some acc2
      else if data.length % 4 = 1 then none
      else if 1 ≤ k ∧ 4 ≤ k + data.length % 4 + 0 then some acc2 else none :=
    fun k => a2bLoop_pads k (data.length % 4) lc2 0 acc2 hqplt
  have hdec : ∀ k, urlsafe_b64decode (data ++ List.replicate k '=') =
      a2bLoop (List.replicate k '=') (data.length % 4) lc2 0 acc2 := by
    intro k
    rw [urlsafe_b64decode, hrun (List.replicate k '='), hqp]
  have hweb : gmailWebhookPadded data = data ++ List.replicate 2 '=' := rfl
  refine ⟨acc2, ?_, ?_, ?_⟩
  · rw [properPadded, hdec ((4 - data.length % 4) % 4), hpads]
    have h4 : data.length % 4 = 0 ∨ data.length % 4 = 2 ∨ data.length % 4 = 3 := by omega
    rcases h4 with h | h | h <;> rw [h] <;> norm_num
  · rw [extractBodyPadded, hdec (4 - data.length % 4), hpads]
    have h4 : data.length % 4 = 0 ∨ data.length % 4 = 2 ∨ data.length % 4 = 3 := by omega
    rcases h4 with h | h | h <;> rw [h] <;> norm_num
  · rw [hweb, hdec 2, hpads]
    have h4 : data.length % 4 = 0 ∨ data.length % 4 = 2 ∨ data.length % 4 = 3 := by omega
    rcases h4 with h | h | h <;> rw [h] <;> norm_num

/-- Witness for C10 on the concrete unpadded value "aGVsbG8" (length 7): both
code paddings decode it to the same bytes as the properly padded value. -/
theorem base64url_padding_correction_witness :
    (∀ c ∈ ['a', 'G', 'V', 's', 'b', 'G', '8'], (b64Val c).isSome)
  ∧ ['a', 'G', 'V', 's', 'b', 'G', '8'].length % 4 ≠ 1
  ∧ ∃ bs, urlsafe_b64decode (properPadded ['a', 'G', 'V', 's', 'b', 'G', '8']) = some bs
        ∧ urlsafe_b64decode (extractBodyPadded ['a', 'G', 'V', 's', 'b', 'G', '8']) = some bs
        ∧ urlsafe_b64decode (gmailWebhookPadded ['a', 'G', 'V', 's', 'b', 'G', '8']) = some bs :=
  ⟨by decide, by decide,
   base64url_padding_correction ['a', 'G', 'V', 's', 'b', 'G', '8'] (by decide) (by decide)⟩

/-! ## Data model (src/db/models.py)

`RawEntry` rows carry tenant, provider name, optional external id, a content
payload and an embedding; the content dict is abstracted to the provider
payload it stores plus the `import_metadata.imported_at` stamp the importers
write into it. `IntegrationToken` rows carry exactly the columns the model
declares; timestamps irrelevant to the claims are omitted. -/

/-- Abstraction of the raw-entry content dict: the provider payload plus the
`imported_at` stamp from `import_metadata`. -/
structure RawContent where
  payload : String
  importedAt : Nat
deriving DecidableEq

/-- One `raw_entries` row (models.RawEntry). -/
structure RawEntryRec where
  userId : Nat
  source : String
  sourceId : Option String
  content : RawContent
  embedding : Nat
  createdAt : Nat
deriving DecidableEq

/-- The fields of `token_metadata` the code reads and writes. -/
structure TokenMeta where
  expiresAt : Option Int
  expiresIn : Option Int
deriving DecidableEq

/-- One `integration_tokens` row (models.IntegrationToken). The model declares
no `webhook_primary_id` column, so the record has no such field. -/
structure TokenRec where
  userId : Nat
  integrationType : String
  accessToken : String
  refreshToken : Option String
  tokenMetadata : Option TokenMeta
deriving DecidableEq

/-- One `webhook_tokens` row (models.WebhookToken). -/
structure WebhookTokenRec where
  userId : Nat
  verificationToken : String
  source : String
deriving DecidableEq

/-- Columns declared by models.IntegrationToken (src/db/models.py 104-117). -/
def integrationTokenColumns : List String :=
  ["id", "user_id", "integration_type", "access_token", "refresh_token",
   "token_metadata", "created_at", "updated_at"]

/-- The composite unique constraint declared on integration_tokens. -/
def integrationTokenUniqueCols : List String := ["user_id", "integration_type"]

/-- The composite unique constraint declared on raw_entries
(uq_user_source_source_id). -/
def rawEntryUniqueCols : List String := ["user_id", "source", "source_id"]

/-- Python attribute lookup on the IntegrationToken model class: names outside
the declared columns raise AttributeError. -/
def integrationTokenAttr (name : String) : Except String Unit :=
  if integrationTokenColumns.contains name then Except.ok ()
  else Except.error ("AttributeError: IntegrationToken has no attribute " ++ name)

/-- Python truthiness of an optional string (None and the empty string are falsy). -/
def pyTruthy : Option String → Bool
  | none => false
  | some s => !(s == "")

/-- The raw-entries lookup key used by the importers. -/
def rawKeyMatch (userId : Nat) (source : String) (sourceId : String) (r : RawEntryRec) : Bool :=
  r.userId == userId && r.source == source && r.sourceId == some sourceId

/-- The integration-tokens lookup key (user, integration type). -/
def tokenKeyMatch (userId : Nat) (itype : String) (t : TokenRec) : Bool :=
  t.userId == userId && t.integrationType == itype

/-! ## Idempotent content upsert paths
(src/integrations/notion_importer.py, src/integrations/gmail_importer.py).
Provider fetches and the embedding collaborator are parameters: a fetch result
is the payload the provider returned (none for a failed fetch), `embed` is the
opaque text-to-vector call, and `now` is the import timestamp. -/

/-- Result classification of `create_or_update_notion_page`. -/
inductive UpsertOutcome where
  | created
  | updated
  | fetchError
  | dbError
deriving DecidableEq

/-- Embedding of `create_or_update_notion_page` (notion_importer.py 28-175),
with the token already supplied: look up the existing row by
(user, "notion", page id); fetch the page (parameter); build the content dict
stamped with the current time; update the existing row in place or insert a
new row; commit. A fetch failure returns an error result without touching the
store; a multi-row lookup raises and the outer handler rolls back. -/
def create_or_update_notion_page (embed : String → Nat) (db : List RawEntryRec)
    (userId : Nat) (pageId : String) (fetchResult : Option String) (now : Nat) :
    List RawEntryRec × UpsertOutcome :=
  let found := db.filter (rawKeyMatch userId "notion" pageId)
  if 2 ≤ found.length then (db, .dbError)
  else
    match fetchResult with
    | none => (db, .fetchError)
    | some page =>
      let content : RawContent := ⟨page, now⟩
      let emb := embed page
      if found.isEmpty then
        (db ++ [⟨userId, "notion", some pageId, content, emb, now⟩], .created)
      else
        (db.map fun r => if rawKeyMatch userId "notion" pageId r then
            { r with content := content, embedding := emb }
          else r, .updated)

/-- Transaction state of a bulk import run: rows inserted so far in the open
transaction, whether a failed flush has poisoned the session, and the
processed count. -/
structure BulkState where
  tx : List RawEntryRec
  broken : Bool
  count : Nat
deriving DecidableEq

/-- One page of the Notion bulk backfill loop (notion_importer.py 257-312):
no existing-row check is made; the new row is added and flushed, and a flush
that violates uq_user_source_source_id poisons the session so every later
iteration and the final commit fail. -/
def bulkStep (embed : String → Nat) (db : List RawEntryRec) (userId : Nat) (now : Nat)
    (st : BulkState) (page : String × String) : BulkState :=
  if st.broken then st
  else
    let row : RawEntryRec := ⟨userId, "notion", some page.1, ⟨page.2, now⟩, embed page.2, now⟩
    if (db ++ st.tx).any (rawKeyMatch userId "notion" page.1) then { st with broken := true }
    else { st with tx := st.tx ++ [row], count := st.count + 1 }

/-- Embedding of `populate_raw_entries_from_notion` (notion_importer.py
208-337) with the discovered pages (id, payload) as input: process every page,
then commit; if the session was poisoned the commit raises and the outer
handler rolls the whole transaction back and reports an error with zero pages
processed. Returns the committed store, the processed count and success. -/
def populate_raw_entries_from_notion (embed : String → Nat) (db : List RawEntryRec)
    (userId : Nat) (pages : List (String × String)) (now : Nat) :
    List RawEntryRec × Nat × Bool :=
  let st := pages.foldl (bulkStep embed db userId now) ⟨[], false, 0⟩
  if st.broken then (db, 0, false)
  else (db ++ st.tx, st.count, true)

/-- One email of the Gmail import loop (gmail_importer.py 179-251): an email
whose (user, "gmail", id) row already exists is skipped without updating it; a
failed detail fetch is skipped; otherwise the new row is inserted. -/
def gmailStep (embed : String → Nat) (db : List RawEntryRec) (userId : Nat) (now : Nat)
    (st : BulkState) (email : String × Option String) : BulkState :=
  if st.broken then st
  else if (db ++ st.tx).any (rawKeyMatch userId "gmail" email.1) then st
  else
    match email.2 with
    | none => st
    | some content =>
        { st with
          tx := st.tx ++ [⟨userId, "gmail", some email.1, ⟨content, now⟩, embed content, now⟩],
          count := st.count + 1 }

/-- Embedding of `import_latest_gmail_emails` (gmail_importer.py 133-276) with
the listed emails (id, optional fetched details) as input. -/
def import_latest_gmail_emails (embed : String → Nat) (db : List RawEntryRec)
    (userId : Nat) (emails : List (String × Option String)) (now : Nat) :
    List RawEntryRec × Nat × Bool :=
  let st := emails.foldl (gmailStep embed db userId now) ⟨[], false, 0⟩
  if st.broken then (db, 0, false)
  else (db ++ st.tx, st.count, true)

/-! ## Token lifecycle (src/api/integration_endpoints.py, gmail_importer.py).
Outbound refresh calls are a functional parameter returning the new access
token and its expires_in on success; `now` stands for datetime.utcnow in
seconds. -/

/-- Embedding of `_refresh_token_if_needed` (integration_endpoints.py
675-727): with recorded expiry within five minutes of now, refresh using the
stored refresh token, persist the new token and expiry on the record and
return the new token; otherwise return the stored token. A missing refresh
token or a failed refresh call raises inside the try block, is caught by the
except branch, and the stored (possibly stale) token is returned instead.
Returns the resulting record and the returned token. -/
def _refresh_token_if_needed (now : Int) (tok : TokenRec)
    (refreshCall : Option String → Except String (String × Int)) : TokenRec × String :=
  match tok.tokenMetadata with
  | none => (tok, tok.accessToken)
  | some meta =>
    match meta.expiresAt with
    | none => (tok, tok.accessToken)
    | some expiresAt =>
      if now + 5 * 60 ≥ expiresAt then
        if pyTruthy tok.refreshToken then
          match refreshCall tok.refreshToken with
          | Except.error _ => (tok, tok.accessToken)
          | Except.ok r =>
            ({ tok with
                accessToken := r.1,
                tokenMetadata := some { meta with
                  expiresAt := some (now + r.2),
                  expiresIn := some r.2 } },
             r.1)
        else (tok, tok.accessToken)
      else (tok, tok.accessToken)

/-- Embedding of `_token_needs_refresh` (gmail_importer.py 76-90): true when
now has reached five minutes before the recorded expiry; false when no expiry
is recorded. -/
def _token_needs_refresh (now : Int) (tok : TokenRec) : Bool :=
  match tok.tokenMetadata with
  | none => false
  | some meta =>
    match meta.expiresAt with
    | none => false
    | some expiresAt => decide (now ≥ expiresAt - 5 * 60)

/-- Embedding of `get_stored_gmail_token` (gmail_importer.py 21-73): look up
the (user, gmail) record; with no record raise ValueError; when the token
needs refresh, call the refresh endpoint with the stored refresh token and on
any failure raise ValueError, otherwise persist and return the new token.
Returns the token together with the resulting store. -/
def get_stored_gmail_token (now : Int) (tokens : List TokenRec) (userId : Nat)
    (refreshCall : Option String → Except String (String × Int))
    (refreshIfNeeded : Bool) : Except String (String × List TokenRec) :=
  let found := tokens.filter (tokenKeyMatch userId "gmail")
  if 2 ≤ found.length then Except.error "MultipleResultsFound"
  else
    match found with
    | [] => Except.error "ValueError: No Gmail token found for user"
    | tok :: _ =>
      if refreshIfNeeded && _token_needs_refresh now tok then
        match refreshCall tok.refreshToken with
        | Except.error e =>
            Except.error ("ValueError: Gmail token expired and refresh failed: " ++ e)
        | Except.ok r =>
            let tok2 := { tok with
                          accessToken := r.1,
                          tokenMetadata := some ⟨some (now + r.2), some r.2⟩ }
            Except.ok (tok2.accessToken,
              tokens.map fun t => if tokenKeyMatch userId "gmail" t then tok2 else t)
      else Except.ok (tok.accessToken, tokens)

/-- Embedding of the credential-store insert as committed under the
UniqueConstraint (user_id, integration_type) declared in models.py: a second
row for the same user and integration type violates the constraint. -/
def insertIntegrationToken (tokens : List TokenRec) (row : TokenRec) :
    Except String (List TokenRec) :=
  if tokens.any (tokenKeyMatch row.userId row.integrationType) then
    Except.error "IntegrityError: duplicate key value violates unique constraint on (user_id, integration_type)"
  else Except.ok (tokens ++ [row])

/-- Embedding of `_store_integration_token` (integration_endpoints.py
533-578). When a webhook_primary_id is supplied, the lookup conditions append
`models.IntegrationToken.webhook_primary_id == webhook_primary_id`; that
attribute lookup raises AttributeError, because the model declares no such
column. Otherwise the (user, type) record is updated in place when present,
with refresh token and metadata only overwritten when supplied, or a new
record is inserted and committed under the unique constraint. -/
def _store_integration_token (tokens : List TokenRec) (userId : Nat)
    (integrationType : String) (accessToken : String) (refreshToken : Option String)
    (webhookPrimaryId : Option String) (tokenMetadata : Option TokenMeta) :
    Except String (List TokenRec) :=
  match (if pyTruthy webhookPrimaryId then integrationTokenAttr "webhook_primary_id"
         else Except.ok ()) with
  | Except.error e => Except.error e
  | Except.ok _ =>
    let found := tokens.filter (tokenKeyMatch userId integrationType)
    if 2 ≤ found.length then Except.error "MultipleResultsFound"
    else if found.isEmpty then
      insertIntegrationToken tokens
        ⟨userId, integrationType, accessToken, refreshToken, tokenMetadata⟩
    else
      Except.ok (tokens.map fun t =>
        if tokenKeyMatch userId integrationType t then
          { t with
                   accessToken := accessToken,
                   refreshToken := if pyTruthy refreshToken then refreshToken else t.refreshToken,
                   tokenMetadata := if tokenMetadata.isSome then tokenMetadata else t.tokenMetadata }
        else t)

/-- Outcome of one outbound HTTP call: a status code, or a raised exception. -/
inductive HttpOutcome where
  | status (code : Nat)
  | exc (msg : String)
deriving DecidableEq

/-- The response dict returned by `disconnect_gmail`. -/
structure DisconnectResponse where
  status : String
  message : String
  tokenRevoked : Bool
  revocationError : Option String
deriving DecidableEq

/-- Embedding of `disconnect_gmail` (integration_endpoints.py 960-1030): find
the (user, gmail) record or fail 404; refresh the token if needed; stop the
Gmail watch (status 200, 204 or 404 succeeds, anything else raises to the
outer handler as a 500 without deleting); then optionally call the revocation
endpoint, recording failure in revoke_result instead of raising; finally
delete the record and commit, reporting the revocation outcome. Errors carry
the HTTP status. -/
def disconnect_gmail (now : Int) (tokens : List TokenRec) (userId : Nat)
    (revokeToken : Bool) (refreshCall : Option String → Except String (String × Int))
    (stopWatch : HttpOutcome) (revokeCall : HttpOutcome) :
    Except (Nat × String) (List TokenRec × DisconnectResponse) :=
  let found := tokens.filter (tokenKeyMatch userId "gmail")
  if 2 ≤ found.length then Except.error (500, "Failed to disconnect Gmail")
  else
    match found with
    | [] => Except.error (404, "No Gmail connection found for user")
    | tok :: _ =>
      let tok2 := (_refresh_token_if_needed now tok refreshCall).1
      let tokens1 := tokens.map fun t => if tokenKeyMatch userId "gmail" t then tok2 else t
      let watchOk := match stopWatch with
        | HttpOutcome.status c => c == 200 || c == 204 || c == 404
        | HttpOutcome.exc _ => false
      if !watchOk then Except.error (500, "Failed to disconnect Gmail")
      else
        let revokeResult : Bool × Option String :=
          if revokeToken && pyTruthy (some tok2.accessToken) then
            match revokeCall with
            | HttpOutcome.status c =>
                if c == 200 then (true, none)
                else (false, some ("Google revocation failed: " ++ toString c))
            | HttpOutcome.exc m => (false, some ("Revocation request failed: " ++ m))
          else (false, none)
        Except.ok (tokens1.filter (fun t => !(tokenKeyMatch userId "gmail" t)),
          ⟨"success", "Gmail disconnected successfully", revokeResult.1, revokeResult.2⟩)

/-! ## Webhook routing (src/api/integration_endpoints.py) -/

/-- One queued background content-fetch-and-upsert task, as passed to
background_tasks.add_task(create_or_update_notion_page, ...). -/
structure UpsertTask where
  userId : Nat
  externalId : String
  accessToken : String
deriving DecidableEq

/-- The fields of a parsed NotionWebhookEvent the handler reads. -/
structure NotionEventData where
  accessibleBy : List (String × String)
  entityId : String
  eventType : String
deriving DecidableEq

/-- The webhook payload resolved once at parse time: a verification challenge
carrying a bare token, an event payload, or a body that parses as JSON but
fails NotionWebhookEvent validation. -/
inductive NotionPayload where
  | verification (token : String)
  | event (ev : NotionEventData)
  | invalid
deriving DecidableEq

/-- The HTTP-level outcome of a webhook handler. -/
inductive WebhookOutcome where
  | ok (message : String)
  | badRequest
  | unauthorized
  | serverError (msg : String)
deriving DecidableEq

/-- Embedding of `_find_tokens_by_bot_ids` (integration_endpoints.py 343-367):
an empty id list returns no tokens before touching the query; otherwise the
where-clause names `IntegrationToken.webhook_primary_id`, whose attribute
lookup raises since the model declares no such column. The surviving branch
keeps only the type restriction of the query, as the bot-id restriction cannot
even be expressed against the declared columns. -/
def _find_tokens_by_bot_ids (tokens : List TokenRec) (botIds : List String) :
    Except String (List TokenRec) :=
  if botIds.isEmpty then Except.ok []
  else
    match integrationTokenAttr "webhook_primary_id" with
    | Except.error e => Except.error e
    | Except.ok _ => Except.ok (tokens.filter fun t => t.integrationType == "notion")

/-- Embedding of `_find_user_by_gmail_email` (integration_endpoints.py
765-791): the query names the missing webhook_primary_id column, the
AttributeError is caught by the except branch inside the helper, and None is
returned. -/
def _find_user_by_gmail_email (tokens : List TokenRec) (emailAddress : String) : Option Nat :=
  match integrationTokenAttr "webhook_primary_id" with
  | Except.error _ => none
  | Except.ok _ => ((tokens.filter fun t => t.integrationType == "gmail").head?).map TokenRec.userId

/-- Routing of a parsed content event, from the body of `handle_notion_webhook`
(integration_endpoints.py 291-334): extract the bot ids from accessible_by,
acknowledge as a no-op when none are present or no tokens match, queue one
create_or_update task per matched token for created/content_updated events, and
acknowledge other event types without processing. The token lookup goes through
`_find_tokens_by_bot_ids`, whose failure surfaces as the 500 of the outer
except branch. -/
def notionEventRouting (tokens : List TokenRec) (webhookTokens : List WebhookTokenRec)
    (ev : NotionEventData) : WebhookOutcome × List UpsertTask × List WebhookTokenRec :=
  let botIds := (ev.accessibleBy.filter fun p => p.2 == "bot").map Prod.fst
  if botIds.isEmpty then
    (WebhookOutcome.ok "No bot_ids found in webhook event", [], webhookTokens)
  else
    match _find_tokens_by_bot_ids tokens botIds with
    | Except.error e => (WebhookOutcome.serverError e, [], webhookTokens)
    | Except.ok matched =>
      if matched.isEmpty then
        (WebhookOutcome.ok "No matching users found", [], webhookTokens)
      else if ev.eventType == "page.created" || ev.eventType == "page.content_updated" then
        (WebhookOutcome.ok ("Queued page update for " ++ toString matched.length ++ " user(s)"),
         matched.map fun t => ⟨t.userId, ev.entityId, t.accessToken⟩, webhookTokens)
      else
        (WebhookOutcome.ok ("Event type " ++ ev.eventType ++ " acknowledged but not processed"),
         [], webhookTokens)

/-- Embedding of `handle_notion_webhook` (integration_endpoints.py 239-340).
Inputs: the configured NOTION_WEBHOOK_VERIFICATION_TOKEN (as UTF-8 bytes), the
stored integration tokens, the stored webhook tokens, the raw body, the parse
result of the body (none when JSON decoding fails), and the X-Notion-Signature
header. Returns the response, the queued background tasks, and the
webhook-token store after the request. Verification challenges return success
before any signature check or routing; the signature is checked only when both
a header and a configured secret are present; then the event is routed. -/
def handle_notion_webhook (envSecret : Option (List Nat)) (tokens : List TokenRec)
    (webhookTokens : List WebhookTokenRec) (body : List Nat)
    (payload : Option NotionPayload) (sigHeader : Option (List Char)) :
    WebhookOutcome × List UpsertTask × List WebhookTokenRec :=
  match payload with
  | none => (WebhookOutcome.badRequest, [], webhookTokens)
  | some (NotionPayload.verification _tok) => (WebhookOutcome.ok "ok", [], webhookTokens)
  | some NotionPayload.invalid => (WebhookOutcome.serverError "ValidationError", [], webhookTokens)
  | some (NotionPayload.event ev) =>
    let sigFailed := match sigHeader, envSecret with
      | some h, some secret => !(_verify_notion_signature body secret h)
      | _, _ => false
    if sigFailed then (WebhookOutcome.unauthorized, [], webhookTokens)
    else notionEventRouting tokens webhookTokens ev

/-- Embedding of `handle_gmail_webhook` (integration_endpoints.py 1101-1168).
The message data field is decoded with two appended pads; the decoded bytes
are parsed as JSON (parameter `parse`, yielding the emailAddress and historyId
fields); missing or falsy fields are acknowledged with an error message; a
matching user is looked up only for logging. The handler queues no task at
all: its task list is always empty because no dispatch call exists in the
source. -/
def handle_gmail_webhook (tokens : List TokenRec) (dataField : List Char)
    (parse : List Nat → Option (Option String × Option Nat)) :
    WebhookOutcome × List UpsertTask :=
  match urlsafe_b64decode (dataField ++ ['=', '=']) with
  | none => (WebhookOutcome.ok "Failed to decode message data", [])
  | some bytes =>
    match parse bytes with
    | none => (WebhookOutcome.ok "Failed to decode message data", [])
    | some fields =>
      match fields.1, fields.2 with
      | some email, some hid =>
        if email == "" || hid == 0 then
          (WebhookOutcome.ok "Missing emailAddress or historyId in decoded data", [])
        else
          let _userId := _find_user_by_gmail_email tokens email
          (WebhookOutcome.ok ("Gmail webhook processed successfully for " ++ email), [])
      | _, _ => (WebhookOutcome.ok "Missing emailAddress or historyId in decoded data", [])

/-! ## Shared helper lemmas -/

/-- Filtering after a keyed in-place update commutes to updating the filtered
rows, when the update preserves the key on the rows it touches. -/
theorem filter_map_update {α : Type} (p : α → Bool) (f : α → α) (l : List α)
    (hp : ∀ a, p a = true → p (f a) = true) :
    (l.map fun a => if p a then f a else a).filter p = (l.filter p).map f := by
  induction l with
  | nil => rfl
  | cons a t ih =>
      cases hpa : p a
      · simp [List.filter_cons, hpa, ih]
      · simp [List.filter_cons, hpa, hp a hpa, ih]

/-- Removing the keyed rows after a keyed in-place update is the same as
removing them outright, when the update preserves the key on the rows it
touches. -/
theorem filter_not_map_update {α : Type} (p : α → Bool) (f : α → α) (l : List α)
    (hp : ∀ a, p a = true → p (f a) = true) :
    (l.map fun a => if p a then f a else a).filter (fun a => !(p a)) =
      l.filter fun a => !(p a) := by
  induction l with
  | nil => rfl
  | cons a t ih =>
      cases hpa : p a
      · simp [List.filter_cons, hpa, ih]
      · simp [List.filter_cons, hpa, hp a hpa, ih]

/-- A list whose keyed filter is empty has no keyed element. -/
theorem any_eq_false_of_filter_eq_nil {α : Type} (p : α → Bool) (l : List α)
    (h : l.filter p = []) : l.any p = false := by
  induction l with
  | nil => rfl
  | cons a t ih =>
      cases hpa : p a
      · simp only [List.filter_cons, hpa, Bool.false_eq_true, if_false] at h
        simp [List.any_cons, hpa, ih h]
      · simp [List.filter_cons, hpa] at h

/-! ## Claim theorems -/

/-- C7: with a recorded expiry more than five minutes in the future the stored
access token is returned unchanged and no refresh is signalled, and with the
expiry five minutes or less away a refresh is performed, persisted on the
record, and its token returned; `_token_needs_refresh` draws the same
boundary. -/
theorem token_refresh_boundary (now : Int) (tok : TokenRec) (meta : TokenMeta) (e : Int)
    (refreshCall : Option String → Except String (String × Int))
    (hmeta : tok.tokenMetadata = some meta) (he : meta.expiresAt = some e) :
    (now + 5 * 60 < e →
      _refresh_token_if_needed now tok refreshCall = (tok, tok.accessToken)
      ∧ _token_needs_refresh now tok = false)
  ∧ (e ≤ now + 5 * 60 →
      _token_needs_refresh now tok = true
      ∧ ∀ rt newTok expIn, tok.refreshToken = some rt → rt ≠ "" →
          refreshCall (some rt) = Except.ok (newTok, expIn) →
          _refresh_token_if_needed now tok refreshCall =
            ({ tok with
                accessToken := newTok,
                tokenMetadata := some { meta with
                  expiresAt := some (now + expIn),
                  expiresIn := some expIn } },
             newTok)) := by
  constructor
  · intro hfresh
    constructor
    · simp only [_refresh_token_if_needed, hmeta, he]
      rw [if_neg (by omega)]
    · simp only [_token_needs_refresh, hmeta, he]
      simp only [decide_eq_false_iff_not]
      omega
  · intro hstale
    constructor
    · simp only [_token_needs_refresh, hmeta, he, decide_eq_true_eq]
      omega
    · intro rt newTok expIn hrt hrtne hcall
      simp only [_refresh_token_if_needed, hmeta, he]
      rw [if_pos (show now + 5 * 60 ≥ e by omega), hrt, hcall]
      simp [pyTruthy, hrtne]

/-- Witness for C7: at now = 0 an expiry of 240 seconds (four minutes) causes
the refresh branch with the refreshed token persisted and returned, and an
expiry of 600 seconds (ten minutes) returns the stored token unchanged. -/
theorem token_refresh_boundary_witness :
    (_refresh_token_if_needed 0 ⟨1, "gmail", "old", some "r", some ⟨some 600, some 600⟩⟩
        (fun _ => Except.ok ("new", 3600)) =
      (⟨1, "gmail", "old", some "r", some ⟨some 600, some 600⟩⟩, "old")
      ∧ _token_needs_refresh 0 ⟨1, "gmail", "old", some "r", some ⟨some 600, some 600⟩⟩ = false)
  ∧ (_token_needs_refresh 0 ⟨1, "gmail", "old", some "r", some ⟨some 240, some 240⟩⟩ = true
      ∧ _refresh_token_if_needed 0 ⟨1, "gmail", "old", some "r", some ⟨some 240, some 240⟩⟩
          (fun _ => Except.ok ("new", 3600)) =
        (⟨1, "gmail", "new", some "r", some ⟨some 3600, some 3600⟩⟩, "new")) :=
  ⟨(token_refresh_boundary 0 _ _ 600 _ rfl rfl).1 (by omega),
   ⟨((token_refresh_boundary 0 _ _ 240 (fun _ => Except.ok ("new", 3600)) rfl rfl).2
       (by omega)).1,
    ((token_refresh_boundary 0 _ _ 240 (fun _ => Except.ok ("new", 3600)) rfl rfl).2
       (by omega)).2 "r" "new" 3600 rfl (by decide) rfl⟩⟩

/-- C5 counterexample: a connection whose recorded expiry (0) is far past at
now = 1000 and which stores no refresh token does not fail on the endpoints
path: `_refresh_token_if_needed` catches its own raise in the except branch and
returns the stored stale access token, leaving the record unchanged — so
obtaining a token does not fail with TokenExpiredNoRefresh as claimed. -/
theorem expired_no_refresh_returns_stale_token :
    _refresh_token_if_needed 1000
        ⟨1, "gmail", "stale", none, some ⟨some 0, some 3600⟩⟩
        (fun _ => Except.error "HTTP 400") =
      (⟨1, "gmail", "stale", none, some ⟨some 0, some 3600⟩⟩, "stale") := by
  decide

/-- C5 amended: when the recorded expiry is within the five-minute margin and
no refresh token is stored, the two code paths disagree. The endpoints path
`_refresh_token_if_needed` swallows its own raise and returns the stored stale
token with the record unchanged, while the importer path
`get_stored_gmail_token` raises a ValueError once the refresh call over the
missing refresh token fails. -/
theorem expired_no_refresh_behavior (now : Int) (tok : TokenRec) (meta : TokenMeta)
    (e : Int) (userId : Nat)
    (refreshCall : Option String → Except String (String × Int))
    (hmeta : tok.tokenMetadata = some meta) (he : meta.expiresAt = some e)
    (hexp : now + 5 * 60 ≥ e) (hrt : tok.refreshToken = none) :
    _refresh_token_if_needed now tok refreshCall = (tok, tok.accessToken)
  ∧ ∀ tokens err, tokens.filter (tokenKeyMatch userId "gmail") = [tok] →
      refreshCall none = Except.error err →
      get_stored_gmail_token now tokens userId refreshCall true =
        Except.error ("ValueError: Gmail token expired and refresh failed: " ++ err) := by
  constructor
  · simp only [_refresh_token_if_needed, hmeta, he]
    rw [if_pos hexp, hrt]
    rfl
  · intro tokens err hfound hcall
    have hneeds : _token_needs_refresh now tok = true := by
      simp only [_token_needs_refresh, hmeta, he, decide_eq_true_eq]
      omega
    simp only [get_stored_gmail_token, hfound, List.length_cons, List.length_nil]
    rw [if_neg (by omega)]
    simp only [Bool.true_and, hneeds, if_pos, hrt, hcall]

/-- Witness for C5 amended at a concrete expired record without refresh token:
the endpoints path returns the stale token, the importer path errors. -/
theorem expired_no_refresh_behavior_witness :
    _refresh_token_if_needed 1000 ⟨1, "gmail", "stale", none, some ⟨some 0, some 3600⟩⟩
        (fun _ => Except.error "HTTP 400") =
      (⟨1, "gmail", "stale", none, some ⟨some 0, some 3600⟩⟩, "stale")
  ∧ get_stored_gmail_token 1000 [⟨1, "gmail", "stale", none, some ⟨some 0, some 3600⟩⟩] 1
        (fun _ => Except.error "HTTP 400") true =
      Except.error "ValueError: Gmail token expired and refresh failed: HTTP 400" :=
  ⟨(expired_no_refresh_behavior 1000 ⟨1, "gmail", "stale", none, some ⟨some 0, some 3600⟩⟩
      ⟨some 0, some 3600⟩ 0 1 (fun _ => Except.error "HTTP 400")
      rfl rfl (by omega) rfl).1,
   (expired_no_refresh_behavior 1000 ⟨1, "gmail", "stale", none, some ⟨some 0, some 3600⟩⟩
      ⟨some 0, some 3600⟩ 0 1 (fun _ => Except.error "HTTP 400")
      rfl rfl (by omega) rfl).2
     [⟨1, "gmail", "stale", none, some ⟨some 0, some 3600⟩⟩] "HTTP 400" (by decide) rfl⟩

/-- Refreshing a token record never changes its user or integration type. -/
theorem refresh_preserves_key (now : Int) (tok : TokenRec)
    (refreshCall : Option String → Except String (String × Int)) :
    ((_refresh_token_if_needed now tok refreshCall).1).userId = tok.userId
  ∧ ((_refresh_token_if_needed now tok refreshCall).1).integrationType =
      tok.integrationType := by
  unfold _refresh_token_if_needed
  repeat' split
  all_goals simp

/-- C8: when the stored (user, gmail) record exists, the watch stop succeeds,
and the revocation call fails — with a non-200 status or a raised exception —
the disconnect still deletes the local credential record and returns a success
response reporting tokenRevoked false together with a populated error field,
instead of raising. -/
theorem disconnect_revocation_failure (now : Int) (tokens : List TokenRec) (userId : Nat)
    (refreshCall : Option String → Except String (String × Int))
    (stopCode : Nat) (revokeCall : HttpOutcome) (tok : TokenRec)
    (hfound : tokens.filter (tokenKeyMatch userId "gmail") = [tok])
    (hstop : stopCode = 200 ∨ stopCode = 204 ∨ stopCode = 404)
    (hrevoke : revokeCall ≠ HttpOutcome.status 200)
    (haccess : ((_refresh_token_if_needed now tok refreshCall).1).accessToken ≠ "") :
    ∃ err, disconnect_gmail now tokens userId true refreshCall
        (HttpOutcome.status stopCode) revokeCall =
      Except.ok (tokens.filter (fun t => !(tokenKeyMatch userId "gmail" t)),
        ⟨"success", "Gmail disconnected successfully", false, some err⟩) := by
  obtain ⟨hu, hi⟩ := refresh_preserves_key now tok refreshCall
  have htk : tokenKeyMatch userId "gmail" tok = true := by
    have hmem : tok ∈ tokens.filter (tokenKeyMatch userId "gmail") := by
      rw [hfound]
      simp
    exact (List.mem_filter.mp hmem).2
  have htk2 : tokenKeyMatch userId "gmail"
      ((_refresh_token_if_needed now tok refreshCall).1) = true := by
    simp only [tokenKeyMatch, Bool.and_eq_true] at htk ⊢
    rw [hu, hi]
    exact htk
  have hdel := filter_not_map_update (tokenKeyMatch userId "gmail")
    (fun _ => (_refresh_token_if_needed now tok refreshCall).1) tokens (fun _ _ => htk2)
  have hlen : ¬ 2 ≤ (tokens.filter (tokenKeyMatch userId "gmail")).length := by
    rw [hfound]
    simp
  have hw : ((stopCode == 200 || stopCode == 204) || stopCode == 404) = true := by
    rcases hstop with rfl | rfl | rfl <;> rfl
  have hacc : ((_refresh_token_if_needed now tok refreshCall).1.accessToken == "") = false := by
    simpa using haccess
  cases revokeCall with
  | status c =>
      have hcne : c ≠ 200 := fun h => hrevoke (by rw [h])
      have hc : (c == 200) = false := by simpa using hcne
      refine ⟨"Google revocation failed: " ++ toString c, ?_⟩
      simp only [disconnect_gmail, hfound, hlen, if_false, hw, hacc, hc, hdel, pyTruthy,
        Bool.not_true, Bool.and_true, Bool.true_and, Bool.not_false, if_true, if_false]
      simp [hdel]
  | exc m =>
      refine ⟨"Revocation request failed: " ++ m, ?_⟩
      simp only [disconnect_gmail, hfound, hlen, if_false, hw, hacc, hdel, pyTruthy,
        Bool.not_true, Bool.and_true, Bool.true_and, Bool.not_false, if_true, if_false]
      simp [hdel]

/-- Witness for C8: one stored gmail record for user 7, watch stop 200, and a
revocation endpoint answering 400 — the record is deleted and the success
response reports tokenRevoked false with an error message. -/
theorem disconnect_revocation_failure_witness :
    ∃ err, disconnect_gmail 0 [⟨7, "gmail", "tokA", none, none⟩] 7 true
        (fun _ => Except.error "conn") (HttpOutcome.status 200) (HttpOutcome.status 400) =
      Except.ok
        (List.filter (fun t => !(tokenKeyMatch 7 "gmail" t)) [⟨7, "gmail", "tokA", none, none⟩],
         ⟨"success", "Gmail disconnected successfully", false, some err⟩) :=
  disconnect_revocation_failure 0 [⟨7, "gmail", "tokA", none, none⟩] 7
    (fun _ => Except.error "conn") 200 (HttpOutcome.status 400)
    ⟨7, "gmail", "tokA", none, none⟩ (by decide) (Or.inl rfl) (by decide) (by decide)

/-- C4 at the failing input: the declared model has no webhook_primary_id
column and constrains (user_id, integration_type) to be unique, so connecting
a first Notion workspace (bot id "botA") already fails with AttributeError in
`_store_integration_token`, and — even taking an existing (1, notion) row as
given — inserting a second row for the same user and provider violates the
unique constraint instead of coexisting. -/
theorem integration_token_store_rejects_routing_key :
    ("webhook_primary_id" ∉ integrationTokenColumns)
  ∧ integrationTokenUniqueCols = ["user_id", "integration_type"]
  ∧ _store_integration_token [] 1 "notion" "tokA" none (some "botA") none =
      Except.error "AttributeError: IntegrationToken has no attribute webhook_primary_id"
  ∧ insertIntegrationToken [⟨1, "notion", "tokA", none, none⟩]
      ⟨1, "notion", "tokB", none, none⟩ =
      Except.error
        "IntegrityError: duplicate key value violates unique constraint on (user_id, integration_type)" := by
  refine ⟨by decide, rfl, ?_, ?_⟩ <;> rfl

/-- C2 at the failing input: a page.created event whose accessible_by names
bot ids "A" and "B", with two stored Notion connections, makes the handler
fail with a 500 (the routing query touches the missing webhook_primary_id
column) and dispatch zero tasks; and a Gmail push notification whose decoded
data matches a stored gmail connection is acknowledged with success while
dispatching zero tasks, since the handler contains no dispatch call. -/
theorem webhook_routing_dispatch_broken :
    handle_notion_webhook none
        [⟨1, "notion", "tok1", none, none⟩, ⟨2, "notion", "tok2", none, none⟩]
        [] []
        (some (NotionPayload.event ⟨[("A", "bot"), ("B", "bot")], "page-1", "page.created"⟩))
        none =
      (WebhookOutcome.serverError "AttributeError: IntegrationToken has no attribute webhook_primary_id",
       [], [])
  ∧ handle_gmail_webhook [⟨1, "gmail", "tok1", none, none⟩] ['a', 'b', 'c', 'd']
        (fun _ => some (some "user@example.com", some 12345)) =
      (WebhookOutcome.ok "Gmail webhook processed successfully for user@example.com", []) := by
  constructor
  · rfl
  · decide

/-- A parsed content event is never answered with 401 by the routing stage. -/
theorem notionEventRouting_ne_unauthorized (tokens : List TokenRec)
    (webhookTokens : List WebhookTokenRec) (ev : NotionEventData) :
    (notionEventRouting tokens webhookTokens ev).1 ≠ WebhookOutcome.unauthorized := by
  intro h
  simp only [notionEventRouting] at h
  repeat' split at h
  all_goals simp_all

/-- C9: a Notion webhook request without the X-Notion-Signature header skips
signature verification entirely — its outcome, tasks and state are the same
as with no configured secret, and it is never a 401 — and a 401 response
occurs only when the header is present, a secret is configured, the payload is
a content event, and verification of the body against the header fails. -/
theorem signature_gate_requires_header (tokens : List TokenRec)
    (webhookTokens : List WebhookTokenRec) (body : List Nat)
    (payload : Option NotionPayload) :
    (∀ secret, handle_notion_webhook (some secret) tokens webhookTokens body payload none =
        handle_notion_webhook none tokens webhookTokens body payload none
      ∧ (handle_notion_webhook (some secret) tokens webhookTokens body payload none).1 ≠
          WebhookOutcome.unauthorized)
  ∧ (∀ envSecret sigHeader,
      (handle_notion_webhook envSecret tokens webhookTokens body payload sigHeader).1 =
          WebhookOutcome.unauthorized →
      ∃ h s ev, sigHeader = some h ∧ envSecret = some s
        ∧ payload = some (NotionPayload.event ev)
        ∧ _verify_notion_signature body s h = false) := by
  constructor
  · intro secret
    match payload with
    | none => exact ⟨rfl, by simp [handle_notion_webhook]⟩
    | some (NotionPayload.verification tok) => exact ⟨rfl, by simp [handle_notion_webhook]⟩
    | some NotionPayload.invalid => exact ⟨rfl, by simp [handle_notion_webhook]⟩
    | some (NotionPayload.event ev) =>
        refine ⟨rfl, ?_⟩
        simpa [handle_notion_webhook] using
          notionEventRouting_ne_unauthorized tokens webhookTokens ev
  · intro envSecret sigHeader hout
    match payload with
    | none => simp [handle_notion_webhook] at hout
    | some (NotionPayload.verification tok) => simp [handle_notion_webhook] at hout
    | some NotionPayload.invalid => simp [handle_notion_webhook] at hout
    | some (NotionPayload.event ev) =>
        match sigHeader, envSecret with
        | none, none =>
            simp only [handle_notion_webhook] at hout
            exact absurd hout (notionEventRouting_ne_unauthorized tokens webhookTokens ev)
        | none, some s =>
            simp only [handle_notion_webhook] at hout
            exact absurd hout (notionEventRouting_ne_unauthorized tokens webhookTokens ev)
        | some h, none =>
            simp only [handle_notion_webhook] at hout
            exact absurd hout (notionEventRouting_ne_unauthorized tokens webhookTokens ev)
        | some h, some s =>
            refine ⟨h, s, ev, rfl, rfl, rfl, ?_⟩
            by_cases hv : _verify_notion_signature body s h = true
            · simp only [handle_notion_webhook, hv, Bool.not_true, if_false] at hout
              exact absurd hout (notionEventRouting_ne_unauthorized tokens webhookTokens ev)
            · simpa using hv

/-- Witness for C9: a content event with no header is processed identically
with and without a configured secret and is not rejected, and the 401 shape
extraction applies at a concrete unauthorized run. -/
theorem signature_gate_requires_header_witness :
    (handle_notion_webhook (some [3]) [] [] [9]
        (some (NotionPayload.event ⟨[], "p", "page.created"⟩)) none =
      handle_notion_webhook none [] [] [9]
        (some (NotionPayload.event ⟨[], "p", "page.created"⟩)) none
    ∧ (handle_notion_webhook (some [3]) [] [] [9]
        (some (NotionPayload.event ⟨[], "p", "page.created"⟩)) none).1 ≠
        WebhookOutcome.unauthorized)
  ∧ ((handle_notion_webhook (some [3]) [] [] [9]
        (some (NotionPayload.event ⟨[], "p", "page.created"⟩)) (some ['x'])).1 =
          WebhookOutcome.unauthorized →
      ∃ h s ev, (some ['x'] : Option (List Char)) = some h
        ∧ (some [3] : Option (List Nat)) = some s
        ∧ (some (NotionPayload.event ⟨[], "p", "page.created"⟩) : Option NotionPayload) =
            some (NotionPayload.event ev)
        ∧ _verify_notion_signature [9] s h = false) :=
  ⟨(signature_gate_requires_header [] [] [9]
      (some (NotionPayload.event ⟨[], "p", "page.created"⟩))).1 [3],
   (signature_gate_requires_header [] [] [9]
      (some (NotionPayload.event ⟨[], "p", "page.created"⟩))).2 (some [3]) (some ['x'])⟩

/-- C6 counterexample: a verification payload delivering token "tok-123" is
acknowledged, but nothing is persisted — the webhook-token store stays empty,
so looking up the stored Notion secret afterwards does not return the
delivered token. -/
theorem verification_token_not_persisted :
    handle_notion_webhook none [] [] [] (some (NotionPayload.verification "tok-123")) none =
      (WebhookOutcome.ok "ok", [], [])
  ∧ ((handle_notion_webhook none [] [] []
        (some (NotionPayload.verification "tok-123")) none).2.2.find?
          (fun w => w.source == "notion")).map WebhookTokenRec.verificationToken ≠
      some "tok-123" := by
  constructor
  · rfl
  · decide

/-- C6 amended: a webhook request whose JSON body contains a verification
token field returns success immediately without routing — no task is queued,
the signature gate is not consulted — and, contrary to the claim, the token is
not persisted: the WebhookToken store is returned unchanged, the token being
only printed for the operator to configure the environment variable. -/
theorem verification_challenge_no_persistence (envSecret : Option (List Nat))
    (tokens : List TokenRec) (webhookTokens : List WebhookTokenRec) (body : List Nat)
    (token : String) (sigHeader : Option (List Char)) :
    handle_notion_webhook envSecret tokens webhookTokens body
      (some (NotionPayload.verification token)) sigHeader =
      (WebhookOutcome.ok "ok", [], webhookTokens) := rfl

/-- C1 counterexample: running the Gmail import twice for the same email and
the same source content leaves the single row carrying the first run's content
(import stamp 0); the second run processes nothing, so the row is not updated
with the content the second run builds (import stamp 1) — the second run skips
rather than updating in place. -/
theorem gmail_second_run_does_not_update :
    import_latest_gmail_emails String.length
        (import_latest_gmail_emails String.length [] 1 [("m1", some "hello")] 0).1
        1 [("m1", some "hello")] 1 =
      ((import_latest_gmail_emails String.length [] 1 [("m1", some "hello")] 0).1, 0, true)
  ∧ ((import_latest_gmail_emails String.length
        (import_latest_gmail_emails String.length [] 1 [("m1", some "hello")] 0).1
        1 [("m1", some "hello")] 1).1.filter (rawKeyMatch 1 "gmail" "m1")).map
          RawEntryRec.content = [⟨"hello", 0⟩]
  ∧ ((import_latest_gmail_emails String.length
        (import_latest_gmail_emails String.length [] 1 [("m1", some "hello")] 0).1
        1 [("m1", some "hello")] 1).1.filter (rawKeyMatch 1 "gmail" "m1")).map
          RawEntryRec.content ≠ [⟨"hello", 1⟩] := by
  refine ⟨rfl, rfl, ?_⟩
  decide

/-- C1 amended: starting from a store with no row for the triple, each path
run twice in sequence with the same source content leaves exactly one RawEntry
row for the triple and inserts no duplicate, but only the Notion webhook path
updates the row in place on the second run (content restamped, creation time
preserved, store length unchanged). The Notion bulk backfill blindly
re-inserts, the flush trips the unique constraint, and the whole second run is
rolled back reporting an error with the row left as the first run wrote it;
the Gmail import skips the existing row, reporting zero emails processed. -/
theorem upsert_paths_twice (embed : String → Nat) (db : List RawEntryRec) (userId : Nat)
    (pageId page emailId email : String) (t1 t2 : Nat)
    (hN : db.filter (rawKeyMatch userId "notion" pageId) = [])
    (hG : db.filter (rawKeyMatch userId "gmail" emailId) = []) :
    (create_or_update_notion_page embed db userId pageId (some page) t1 =
        (db ++ [⟨userId, "notion", some pageId, ⟨page, t1⟩, embed page, t1⟩],
         UpsertOutcome.created)
     ∧ (create_or_update_notion_page embed
          (db ++ [⟨userId, "notion", some pageId, ⟨page, t1⟩, embed page, t1⟩])
          userId pageId (some page) t2).2 = UpsertOutcome.updated
     ∧ (create_or_update_notion_page embed
          (db ++ [⟨userId, "notion", some pageId, ⟨page, t1⟩, embed page, t1⟩])
          userId pageId (some page) t2).1.filter (rawKeyMatch userId "notion" pageId) =
         [⟨userId, "notion", some pageId, ⟨page, t2⟩, embed page, t1⟩]
     ∧ (create_or_update_notion_page embed
          (db ++ [⟨userId, "notion", some pageId, ⟨page, t1⟩, embed page, t1⟩])
          userId pageId (some page) t2).1.length =
         (db ++
           ([⟨userId, "notion", some pageId, ⟨page, t1⟩, embed page, t1⟩] :
             List RawEntryRec)).length)
  ∧ (populate_raw_entries_from_notion embed db userId [(pageId, page)] t1 =
        (db ++ [⟨userId, "notion", some pageId, ⟨page, t1⟩, embed page, t1⟩], 1, true)
     ∧ populate_raw_entries_from_notion embed
          (db ++ [⟨userId, "notion", some pageId, ⟨page, t1⟩, embed page, t1⟩])
          userId [(pageId, page)] t2 =
        (db ++ [⟨userId, "notion", some pageId, ⟨page, t1⟩, embed page, t1⟩], 0, false)
     ∧ (db ++
          ([⟨userId, "notion", some pageId, ⟨page, t1⟩, embed page, t1⟩] :
            List RawEntryRec)).filter
          (rawKeyMatch userId "notion" pageId) =
        [⟨userId, "notion", some pageId, ⟨page, t1⟩, embed page, t1⟩])
  ∧ (import_latest_gmail_emails embed db userId [(emailId, some email)] t1 =
        (db ++ [⟨userId, "gmail", some emailId, ⟨email, t1⟩, embed email, t1⟩], 1, true)
     ∧ import_latest_gmail_emails embed
          (db ++ [⟨userId, "gmail", some emailId, ⟨email, t1⟩, embed email, t1⟩])
          userId [(emailId, some email)] t2 =
        (db ++ [⟨userId, "gmail", some emailId, ⟨email, t1⟩, embed email, t1⟩], 0, true)
     ∧ (db ++
          ([⟨userId, "gmail", some emailId, ⟨email, t1⟩, embed email, t1⟩] :
            List RawEntryRec)).filter
          (rawKeyMatch userId "gmail" emailId) =
        [⟨userId, "gmail", some emailId, ⟨email, t1⟩, embed email, t1⟩]) := by
  have hnrow : rawKeyMatch userId "notion" pageId
      (⟨userId, "notion", some pageId, ⟨page, t1⟩, embed page, t1⟩ : RawEntryRec) = true := by
    simp [rawKeyMatch]
  have hgrow : rawKeyMatch userId "gmail" emailId
      (⟨userId, "gmail", some emailId, ⟨email, t1⟩, embed email, t1⟩ : RawEntryRec) = true := by
    simp [rawKeyMatch]
  have hanyN : db.any (rawKeyMatch userId "notion" pageId) = false :=
    any_eq_false_of_filter_eq_nil _ _ hN
  have hanyG : db.any (rawKeyMatch userId "gmail" emailId) = false :=
    any_eq_false_of_filter_eq_nil _ _ hG
  have hfilter1 : (db ++
      ([⟨userId, "notion", some pageId, ⟨page, t1⟩, embed page, t1⟩] : List RawEntryRec)).filter
      (rawKeyMatch userId "notion" pageId) =
      [⟨userId, "notion", some pageId, ⟨page, t1⟩, embed page, t1⟩] := by
    rw [List.filter_append, hN]
    simp [hnrow]
  have hfilterG : (db ++
      ([⟨userId, "gmail", some emailId, ⟨email, t1⟩, embed email, t1⟩] : List RawEntryRec)).filter
      (rawKeyMatch userId "gmail" emailId) =
      [⟨userId, "gmail", some emailId, ⟨email, t1⟩, embed email, t1⟩] := by
    rw [List.filter_append, hG]
    simp [hgrow]
  have hanyN2 : (db ++
      ([⟨userId, "notion", some pageId, ⟨page, t1⟩, embed page, t1⟩] : List RawEntryRec)).any
      (rawKeyMatch userId "notion" pageId) = true := by
    rw [List.any_append]
    simp [hnrow]
  have hanyG2 : (db ++
      ([⟨userId, "gmail", some emailId, ⟨email, t1⟩, embed email, t1⟩] : List RawEntryRec)).any
      (rawKeyMatch userId "gmail" emailId) = true := by
    rw [List.any_append]
    simp [hgrow]
  refine ⟨⟨?_, ?_, ?_, ?_⟩, ⟨?_, ?_, ?_⟩, ⟨?_, ?_, ?_⟩⟩
  · simp [create_or_update_notion_page, hN]
  · simp [create_or_update_notion_page, hfilter1]
  · have hpf : ∀ r : RawEntryRec, rawKeyMatch userId "notion" pageId r = true →
        rawKeyMatch userId "notion" pageId
          { r with content := ⟨page, t2⟩, embedding := embed page } = true :=
      fun _ h => h
    simp only [create_or_update_notion_page, hfilter1, List.length_cons, List.length_nil,
      List.isEmpty_cons, Bool.false_eq_true, if_false]
    rw [if_neg (by omega)]
    rw [filter_map_update _ _ _ hpf, hfilter1]
    simp
  · simp [create_or_update_notion_page, hfilter1]
  · simp [populate_raw_entries_from_notion, bulkStep, hanyN]
  · simp [populate_raw_entries_from_notion, bulkStep, hanyN2]
  · exact hfilter1
  · simp [import_latest_gmail_emails, gmailStep, hanyG]
  · simp [import_latest_gmail_emails, gmailStep, hanyG2]
  · exact hfilterG

/-- Witness for C1 amended on an empty store: the Gmail import inserts its one
row on the first run, and the bulk backfill second run leaves the store
unchanged while reporting failure. -/
theorem upsert_paths_twice_witness :
    ([] : List RawEntryRec).filter (rawKeyMatch 2 "notion" "p") = []
  ∧ ([] : List RawEntryRec).filter (rawKeyMatch 2 "gmail" "m") = []
  ∧ import_latest_gmail_emails String.length [] 2 [("m", some "E")] 1 =
      ([⟨2, "gmail", some "m", ⟨"E", 1⟩, 1, 1⟩], 1, true)
  ∧ populate_raw_entries_from_notion String.length
      [⟨2, "notion", some "p", ⟨"P", 1⟩, 1, 1⟩] 2 [("p", "P")] 2 =
      ([⟨2, "notion", some "p", ⟨"P", 1⟩, 1, 1⟩], 0, false) :=
  ⟨rfl, rfl,
   (upsert_paths_twice String.length [] 2 "p" "P" "m" "E" 1 2 rfl rfl).2.2.1,
   (upsert_paths_twice String.length [] 2 "p" "P" "m" "E" 1 2 rfl rfl).2.1.2.1⟩

end Everlight
